import Mathlib

/-!
Shallow embedding of the progression / state-gating engine of the Detetive
interactive case player (src/app.py).  Pure data and page handlers are
modelled as Lean functions; the Streamlit session dictionary keyed by case
slug is modelled as a function from slug to an optional case state; button
handlers become state transformers, and the user-visible outcome of a
handler (success, blocked view, error message) is an explicit outcome type.
Timestamps produced by datetime.now() are passed in as explicit string
arguments.  Python integers are embedded as Nat: the engine never
subtracts, so no truncation can occur.  Python str.strip() is modelled by
the structurally recursive strip function below.
-/

namespace Detetive

/-- One envelope of case content; app.py reads the fields id, title, body. -/
structure Envelope where
  id : Nat
  title : String
  body : String
deriving DecidableEq, Repr

/-- The closing text of a case (case_data["closing"]: title and body). -/
structure ClosingText where
  title : String
  body : String
deriving DecidableEq, Repr

/-- A parsed case definition as read by load_case: the fields of the JSON
document that the engine consumes. -/
structure CaseDef where
  slug : String
  title : String
  subtitle : String
  suspects : List String
  envelopes : List Envelope
  closing : ClosingText
deriving DecidableEq, Repr

/-- Per-suspect record: cs["suspects"][name] = status and notes strings. -/
structure SuspectInfo where
  status : String
  notes : String
deriving DecidableEq, Repr

/-- The decision record cs["decision"]; submitted_at is None until a
successful submission (source key "submitted_at"). -/
structure DecisionRecord where
  culprit : String
  method : String
  motive : String
  reasoning : String
  submitted_at : Option String
deriving DecidableEq, Repr

/-- A timeline entry: the dict with keys "at" (timestamp) and "event". -/
structure TimelineEntry where
  ts : String
  event : String
deriving DecidableEq, Repr

/-- A hypothesis entry: the dict with keys "at" (timestamp) and "text". -/
structure HypothesisEntry where
  ts : String
  text : String
deriving DecidableEq, Repr

/-- Per-case progress state: the dict built by default_case_state in
app.py, with the same field names.  The suspects dict is an
insertion-ordered association list. -/
structure CaseState where
  started : Bool
  current_env : Nat
  max_opened_envelope : Nat
  notes : String
  timeline : List TimelineEntry
  hypotheses : List HypothesisEntry
  suspects : List (String × SuspectInfo)
  decision_submitted : Bool
  decision : DecisionRecord
deriving DecidableEq, Repr

/-- Helper for the model of Python str.strip(): drop leading whitespace
from a character list, by structural recursion so that concrete instances
reduce inside the kernel. -/
def stripChars : List Char → List Char
  | [] => []
  | c :: cs => if c.isWhitespace then stripChars cs else c :: cs

/-- The model of Python str.strip(): remove leading and trailing
whitespace from a string. -/
def strip (s : String) : String :=
  String.mk ((stripChars (stripChars s.data).reverse).reverse)

/-- The fallback suspect roster hard-coded in default_case_state. -/
def fallback_suspects : List String :=
  ["Daniel Moreira", "Laura Moreira", "Proprietário (Sr. Álvaro)"]

/-- default_case_state (app.py lines 123-143): the fresh state for a case.
Python reads case_data.get("case", \x7b\x7d).get("suspects") and falls back
to the fixed roster when that value is falsy (absent or the empty list);
absence and emptiness are both modelled by an empty suspects list. -/
def default_case_state (cd : CaseDef) : CaseState :=
  let roster := if cd.suspects.isEmpty then fallback_suspects else cd.suspects
  { started := false
    current_env := 1
    max_opened_envelope := 0
    notes := ""
    timeline := []
    hypotheses := []
    suspects := roster.map (fun s => (s, { status := "Neutro", notes := "" }))
    decision_submitted := false
    decision :=
      { culprit := "", method := "", motive := "", reasoning := "", submitted_at := none } }

/-- The session registry st.session_state.state_by_case: a mapping from
case slug to that case's progress state. -/
abbrev Registry : Type := String → Option CaseState

/-- The empty registry (init_state creates the empty dict). -/
def empty_registry : Registry := fun _ => none

/-- Dictionary entry assignment: state_by_case[slug] = cs. -/
def set_entry (r : Registry) (slug : String) (cs : CaseState) : Registry :=
  fun s => if s = slug then some cs else r s

/-- get_cs (app.py lines 145-150): get case-scoped state, creating the
default entry if the slug is missing; returns the state together with the
(possibly updated) registry. -/
def get_cs (r : Registry) (slug : String) (cd : CaseDef) : CaseState × Registry :=
  match r slug with
  | some cs => (cs, r)
  | none => (default_case_state cd, set_entry r slug (default_case_state cd))

/-- reset_case (app.py lines 152-153): replace the entry for slug with a
fresh default state. -/
def reset_case (r : Registry) (slug : String) (cd : CaseDef) : Registry :=
  set_entry r slug (default_case_state cd)

/-- reset_all (app.py lines 155-158): every session key is deleted, so all
case states are gone. -/
def reset_all (_r : Registry) : Registry := fun _ => none

/-- The script pattern for every mutation: cs = get_cs(slug, data) and the
handler then mutates that dict entry in place; modelled by applying the
state transformer f to the looked-up (or freshly created) state and
storing the result back under the same slug. -/
def session_apply (r : Registry) (slug : String) (cd : CaseDef)
    (f : CaseState → CaseState) : Registry :=
  let p := get_cs r slug cd
  set_entry p.2 slug (f p.1)

/-- can_open (app.py lines 177-178). -/
def can_open (cs : CaseState) (env_id : Nat) : Bool :=
  env_id ≤ cs.max_opened_envelope

/-- all_unlocked (app.py lines 180-181). -/
def all_unlocked (cs : CaseState) : Bool :=
  cs.max_opened_envelope ≥ 6

/-- envelope_by_id (app.py lines 183-184); Python raises StopIteration
when no envelope has the requested id, modelled by the none result. -/
def envelope_by_id (cd : CaseDef) (env_id : Nat) : Option Envelope :=
  cd.envelopes.find? (fun e => e.id == env_id)

/-- Content loading failures. -/
inductive ContentError where
  | missing_case_file
deriving DecidableEq, Repr

/-- load_case (app.py lines 76-80): st.error plus st.stop when the case
file does not resolve (the error result), otherwise the parsed document is
returned as-is; no validation of the envelope list is performed. -/
def load_case (file : Option CaseDef) : Except ContentError CaseDef :=
  match file with
  | none => Except.error ContentError.missing_case_file
  | some cd => Except.ok cd

/-- The start-case button handler (app.py lines 265-271): shown only when
the case is not started; sets started, frontier 1, current envelope 1. -/
def startCase (cs : CaseState) : CaseState :=
  if cs.started then cs
  else { cs with started := true, max_opened_envelope := 1, current_env := 1 }

/-- Envelope navigation (app.py lines 327-332 and 350-357): the open
button for envelope e is enabled exactly when can_open holds and then sets
current_env := e; a locked envelope's button is disabled, so clicking is
impossible and the state is unchanged. -/
def navigate (cs : CaseState) (e : Nat) : CaseState :=
  if can_open cs e then { cs with current_env := e } else cs

/-- The confirm-reading handler (app.py lines 344-348) evaluated at
envelope e: the frontier advances exactly when e is the frontier and is
below 6; otherwise nothing changes and no error is signalled.  In the UI,
e is always cs.current_env. -/
def confirmReading (cs : CaseState) (e : Nat) : CaseState :=
  if cs.max_opened_envelope = e ∧ e < 6 then
    { cs with max_opened_envelope := cs.max_opened_envelope + 1 }
  else cs

/-- The user-visible outcome of the decision form (app.py lines 444-491). -/
inductive SubmitOutcome where
  | notAllUnlocked
  | incomplete (msg : String)
  | success
deriving DecidableEq, Repr

/-- The decision page submit path (app.py lines 444-491): the page returns
early (warning, no form) unless all_unlocked; the form handler rejects with
the fixed message when the culprit selection is empty or any of the three
text fields is blank after stripping, and otherwise commits the trimmed
fields with a timestamp and sets decision_submitted.  Note that the code
never consults decision_submitted here, and the culprit string itself is
tested only for emptiness, not stripped. -/
def submitDecision (cs : CaseState) (culprit method motive reasoning now : String) :
    SubmitOutcome × CaseState :=
  if all_unlocked cs then
    if culprit = "" ∨ strip method = "" ∨ strip motive = "" ∨ strip reasoning = "" then
      (SubmitOutcome.incomplete "Preencha todos os campos.", cs)
    else
      (SubmitOutcome.success,
        { cs with
            decision_submitted := true
            decision :=
              { culprit := culprit
                method := strip method
                motive := strip motive
                reasoning := strip reasoning
                submitted_at := some now } })
  else (SubmitOutcome.notAllUnlocked, cs)

/-- The notes text area (app.py line 383): free overwrite of cs["notes"]. -/
def setNotes (cs : CaseState) (txt : String) : CaseState :=
  { cs with notes := txt }

/-- The hypothesis quick-add (app.py lines 369-371 and 405-406 analogue):
whitespace-only text is a silent no-op, otherwise the stripped text is
appended with a timestamp. -/
def appendHypothesis (cs : CaseState) (now txt : String) : CaseState :=
  if strip txt = "" then cs
  else { cs with hypotheses := cs.hypotheses ++ [{ ts := now, text := strip txt }] }

/-- The timeline form handler (app.py lines 402-408): whitespace-only text
is a silent no-op, otherwise the stripped event is appended. -/
def appendTimelineEvent (cs : CaseState) (now txt : String) : CaseState :=
  if strip txt = "" then cs
  else { cs with timeline := cs.timeline ++ [{ ts := now, event := strip txt }] }

/-- The suspect status selectbox write-back (app.py line 427): updates the
status of the named suspect; the notebook only iterates existing names. -/
def setSuspectStatus (cs : CaseState) (name v : String) : CaseState :=
  { cs with
      suspects := cs.suspects.map
        (fun p => if p.1 = name then (p.1, { p.2 with status := v }) else p) }

/-- The suspect notes text area write-back (app.py line 428). -/
def setSuspectNotes (cs : CaseState) (name txt : String) : CaseState :=
  { cs with
      suspects := cs.suspects.map
        (fun p => if p.1 = name then (p.1, { p.2 with notes := txt }) else p) }

/-- What the closing page shows (app.py lines 504-520). -/
inductive ClosingView where
  | stopped_not_started
  | blocked
  | revealed (title body : String)
deriving DecidableEq, Repr

/-- page_closing (app.py lines 504-520): require_started stops the page
when the case is not started; then the narrative is shown only when the
decision has been submitted, otherwise an info banner and nothing else. -/
def page_closing (cd : CaseDef) (cs : CaseState) : ClosingView :=
  if cs.started then
    if cs.decision_submitted then ClosingView.revealed cd.closing.title cd.closing.body
    else ClosingView.blocked
  else ClosingView.stopped_not_started

/-- The observable result of trying to open envelope e from the envelope
list.  The lockedError constructor is the vocabulary of the specification
(a surfaced LockedEnvelopeError); the code below never produces it. -/
inductive NavOutcome where
  | moved (cs : CaseState)
  | lockedError (cs : CaseState)
  | silent (cs : CaseState)
deriving DecidableEq, Repr

/-- The code's navigation outcome (app.py lines 327-332): an unlocked
envelope's button moves the pointer; a locked envelope's button is
rendered disabled, so the attempt is a silent no-op, never an error. -/
def navigate_outcome (cs : CaseState) (e : Nat) : NavOutcome :=
  if can_open cs e then NavOutcome.moved { cs with current_env := e }
  else NavOutcome.silent cs

/-- Modelled from the spec: the specification's navigate, which raises
LockedEnvelopeError on a locked envelope; stated only for comparison with
navigate_outcome above. -/
def navigate_spec (cs : CaseState) (e : Nat) : NavOutcome :=
  if can_open cs e then NavOutcome.moved { cs with current_env := e }
  else NavOutcome.lockedError cs

/-- One user action on a single case's state, as the guarded page handlers
allow it: every page except home calls require_started, so all mutations
other than start demand a started case; reset is deliberately excluded. -/
inductive Step : CaseState → CaseState → Prop where
  | start (s : CaseState) : Step s (startCase s)
  | nav (s : CaseState) (e : Nat) (h : s.started = true) : Step s (navigate s e)
  | confirm (s : CaseState) (h : s.started = true) :
      Step s (confirmReading s s.current_env)
  | submit (s : CaseState) (c m mo r t : String) (h : s.started = true) :
      Step s (submitDecision s c m mo r t).2
  | set_notes (s : CaseState) (txt : String) (h : s.started = true) :
      Step s (setNotes s txt)
  | add_hyp (s : CaseState) (ts txt : String) (h : s.started = true) :
      Step s (appendHypothesis s ts txt)
  | add_timeline (s : CaseState) (ts txt : String) (h : s.started = true) :
      Step s (appendTimelineEvent s ts txt)
  | set_status (s : CaseState) (n v : String) (h : s.started = true) :
      Step s (setSuspectStatus s n v)
  | set_susp_notes (s : CaseState) (n txt : String) (h : s.started = true) :
      Step s (setSuspectNotes s n txt)

/-- States reachable from the fresh default state of a case by user
actions (reset just returns to the initial state, which is reachable). -/
inductive Reachable (cd : CaseDef) : CaseState → Prop where
  | init : Reachable cd (default_case_state cd)
  | step {s s2 : CaseState} : Reachable cd s → Step s s2 → Reachable cd s2

/-- The inductive invariant of a case state: the frontier is bounded by 6,
a not-started case has frontier 0 and no submitted decision, and a started
case never points beyond the frontier. -/
def Inv (s : CaseState) : Prop :=
  s.max_opened_envelope ≤ 6
  ∧ (s.started = false → s.max_opened_envelope = 0 ∧ s.decision_submitted = false)
  ∧ (s.started = true → s.current_env ≤ s.max_opened_envelope)

/-- A concrete well-formed test case used by the witnesses: no declared
suspects (so the fallback roster applies) and six contiguous envelopes. -/
def mkEnv (i : Nat) : Envelope :=
  { id := i, title := "Envelope", body := "corpo" }

def cd0 : CaseDef :=
  { slug := "caso-teste"
    title := "Caso Teste"
    subtitle := "subtitulo"
    suspects := []
    envelopes := [mkEnv 1, mkEnv 2, mkEnv 3, mkEnv 4, mkEnv 5, mkEnv 6]
    closing := { title := "Fecho", body := "a verdade" } }

/-- The same case with envelope 3 missing: ids 1,2,4,5,6. -/
def cd_gap : CaseDef :=
  { cd0 with envelopes := [mkEnv 1, mkEnv 2, mkEnv 4, mkEnv 5, mkEnv 6] }

/-- The walkthrough of spec section 8, as concrete states. -/
def w1 : CaseState := startCase (default_case_state cd0)

def w2 : CaseState := confirmReading w1 w1.current_env

def w3 : CaseState := navigate w2 2

def w4 : CaseState := confirmReading w3 w3.current_env

def w5 : CaseState := navigate w4 3

def w6 : CaseState := confirmReading w5 w5.current_env

def w7 : CaseState := navigate w6 4

def w8 : CaseState := confirmReading w7 w7.current_env

def w9 : CaseState := navigate w8 5

def w10 : CaseState := confirmReading w9 w9.current_env

def w11 : CaseState := navigate w10 6

def w12 : CaseState :=
  (submitDecision w11 "Daniel Moreira" "metodo" "motivo" "raciocinio" "2024-01-01T00:00:00").2

/-- A registry that already holds an entry for case slug "b". -/
def reg0 : Registry := set_entry empty_registry "b" (startCase (default_case_state cd0))

/-! ## Basic lemmas about the operations -/

theorem can_open_iff (cs : CaseState) (e : Nat) :
    can_open cs e = true ↔ e ≤ cs.max_opened_envelope := by
  simp [can_open]

@[simp] theorem navigate_started (cs : CaseState) (e : Nat) :
    (navigate cs e).started = cs.started := by
  unfold navigate
  split <;> rfl

@[simp] theorem navigate_max (cs : CaseState) (e : Nat) :
    (navigate cs e).max_opened_envelope = cs.max_opened_envelope := by
  unfold navigate
  split <;> rfl

@[simp] theorem navigate_dec_sub (cs : CaseState) (e : Nat) :
    (navigate cs e).decision_submitted = cs.decision_submitted := by
  unfold navigate
  split <;> rfl

@[simp] theorem navigate_decision (cs : CaseState) (e : Nat) :
    (navigate cs e).decision = cs.decision := by
  unfold navigate
  split <;> rfl

@[simp] theorem confirm_started (cs : CaseState) (e : Nat) :
    (confirmReading cs e).started = cs.started := by
  unfold confirmReading
  split <;> rfl

@[simp] theorem confirm_current (cs : CaseState) (e : Nat) :
    (confirmReading cs e).current_env = cs.current_env := by
  unfold confirmReading
  split <;> rfl

@[simp] theorem confirm_dec_sub (cs : CaseState) (e : Nat) :
    (confirmReading cs e).decision_submitted = cs.decision_submitted := by
  unfold confirmReading
  split <;> rfl

@[simp] theorem confirm_decision (cs : CaseState) (e : Nat) :
    (confirmReading cs e).decision = cs.decision := by
  unfold confirmReading
  split <;> rfl

theorem confirm_max_le (cs : CaseState) (e : Nat) :
    cs.max_opened_envelope ≤ (confirmReading cs e).max_opened_envelope := by
  unfold confirmReading
  split
  · exact Nat.le_succ _
  · exact Nat.le_refl _

theorem startCase_of_started (cs : CaseState) (h : cs.started = true) :
    startCase cs = cs := by
  unfold startCase
  simp [h]

theorem startCase_of_not_started (cs : CaseState) (h : cs.started = false) :
    startCase cs = { cs with started := true, max_opened_envelope := 1, current_env := 1 } := by
  unfold startCase
  simp [h]

@[simp] theorem startCase_dec_sub (cs : CaseState) :
    (startCase cs).decision_submitted = cs.decision_submitted := by
  unfold startCase
  split <;> rfl

@[simp] theorem startCase_decision (cs : CaseState) :
    (startCase cs).decision = cs.decision := by
  unfold startCase
  split <;> rfl

@[simp] theorem submit_started (cs : CaseState) (c m mo r t : String) :
    ((submitDecision cs c m mo r t).2).started = cs.started := by
  unfold submitDecision
  split
  · split <;> rfl
  · rfl

@[simp] theorem submit_max (cs : CaseState) (c m mo r t : String) :
    ((submitDecision cs c m mo r t).2).max_opened_envelope = cs.max_opened_envelope := by
  unfold submitDecision
  split
  · split <;> rfl
  · rfl

@[simp] theorem submit_current (cs : CaseState) (c m mo r t : String) :
    ((submitDecision cs c m mo r t).2).current_env = cs.current_env := by
  unfold submitDecision
  split
  · split <;> rfl
  · rfl

theorem submit_dec_sub_persist (cs : CaseState) (c m mo r t : String)
    (h : cs.decision_submitted = true) :
    ((submitDecision cs c m mo r t).2).decision_submitted = true := by
  unfold submitDecision
  split
  · split
    · exact h
    · rfl
  · exact h

theorem submit_dec_sub_of_not_unlocked (cs : CaseState) (c m mo r t : String)
    (h : all_unlocked cs = false) :
    ((submitDecision cs c m mo r t).2).decision_submitted = cs.decision_submitted := by
  unfold submitDecision
  simp [h]

@[simp] theorem setNotes_started (cs : CaseState) (txt : String) :
    (setNotes cs txt).started = cs.started := rfl

@[simp] theorem setNotes_max (cs : CaseState) (txt : String) :
    (setNotes cs txt).max_opened_envelope = cs.max_opened_envelope := rfl

@[simp] theorem setNotes_current (cs : CaseState) (txt : String) :
    (setNotes cs txt).current_env = cs.current_env := rfl

@[simp] theorem setNotes_dec_sub (cs : CaseState) (txt : String) :
    (setNotes cs txt).decision_submitted = cs.decision_submitted := rfl

@[simp] theorem setNotes_decision (cs : CaseState) (txt : String) :
    (setNotes cs txt).decision = cs.decision := rfl

@[simp] theorem appendHypothesis_started (cs : CaseState) (ts txt : String) :
    (appendHypothesis cs ts txt).started = cs.started := by
  unfold appendHypothesis
  split <;> rfl

@[simp] theorem appendHypothesis_max (cs : CaseState) (ts txt : String) :
    (appendHypothesis cs ts txt).max_opened_envelope = cs.max_opened_envelope := by
  unfold appendHypothesis
  split <;> rfl

@[simp] theorem appendHypothesis_current (cs : CaseState) (ts txt : String) :
    (appendHypothesis cs ts txt).current_env = cs.current_env := by
  unfold appendHypothesis
  split <;> rfl

@[simp] theorem appendHypothesis_dec_sub (cs : CaseState) (ts txt : String) :
    (appendHypothesis cs ts txt).decision_submitted = cs.decision_submitted := by
  unfold appendHypothesis
  split <;> rfl

@[simp] theorem appendHypothesis_decision (cs : CaseState) (ts txt : String) :
    (appendHypothesis cs ts txt).decision = cs.decision := by
  unfold appendHypothesis
  split <;> rfl

@[simp] theorem appendTimelineEvent_started (cs : CaseState) (ts txt : String) :
    (appendTimelineEvent cs ts txt).started = cs.started := by
  unfold appendTimelineEvent
  split <;> rfl

@[simp] theorem appendTimelineEvent_max (cs : CaseState) (ts txt : String) :
    (appendTimelineEvent cs ts txt).max_opened_envelope = cs.max_opened_envelope := by
  unfold appendTimelineEvent
  split <;> rfl

@[simp] theorem appendTimelineEvent_current (cs : CaseState) (ts txt : String) :
    (appendTimelineEvent cs ts txt).current_env = cs.current_env := by
  unfold appendTimelineEvent
  split <;> rfl

@[simp] theorem appendTimelineEvent_dec_sub (cs : CaseState) (ts txt : String) :
    (appendTimelineEvent cs ts txt).decision_submitted = cs.decision_submitted := by
  unfold appendTimelineEvent
  split <;> rfl

@[simp] theorem appendTimelineEvent_decision (cs : CaseState) (ts txt : String) :
    (appendTimelineEvent cs ts txt).decision = cs.decision := by
  unfold appendTimelineEvent
  split <;> rfl

@[simp] theorem setSuspectStatus_started (cs : CaseState) (n v : String) :
    (setSuspectStatus cs n v).started = cs.started := rfl

@[simp] theorem setSuspectStatus_max (cs : CaseState) (n v : String) :
    (setSuspectStatus cs n v).max_opened_envelope = cs.max_opened_envelope := rfl

@[simp] theorem setSuspectStatus_current (cs : CaseState) (n v : String) :
    (setSuspectStatus cs n v).current_env = cs.current_env := rfl

@[simp] theorem setSuspectStatus_dec_sub (cs : CaseState) (n v : String) :
    (setSuspectStatus cs n v).decision_submitted = cs.decision_submitted := rfl

@[simp] theorem setSuspectStatus_decision (cs : CaseState) (n v : String) :
    (setSuspectStatus cs n v).decision = cs.decision := rfl

@[simp] theorem setSuspectNotes_started (cs : CaseState) (n txt : String) :
    (setSuspectNotes cs n txt).started = cs.started := rfl

@[simp] theorem setSuspectNotes_max (cs : CaseState) (n txt : String) :
    (setSuspectNotes cs n txt).max_opened_envelope = cs.max_opened_envelope := rfl

@[simp] theorem setSuspectNotes_current (cs : CaseState) (n txt : String) :
    (setSuspectNotes cs n txt).current_env = cs.current_env := rfl

@[simp] theorem setSuspectNotes_dec_sub (cs : CaseState) (n txt : String) :
    (setSuspectNotes cs n txt).decision_submitted = cs.decision_submitted := rfl

@[simp] theorem setSuspectNotes_decision (cs : CaseState) (n txt : String) :
    (setSuspectNotes cs n txt).decision = cs.decision := rfl

/-! ## The inductive invariant -/

theorem inv_default (cd : CaseDef) : Inv (default_case_state cd) := by
  refine ⟨Nat.zero_le 6, fun _ => ⟨rfl, rfl⟩, fun h => ?_⟩
  simp [default_case_state] at h

theorem inv_step {s s2 : CaseState} (h : Inv s) (hs : Step s s2) : Inv s2 := by
  obtain ⟨h1, h2, h3⟩ := h
  cases hs with
  | start =>
      cases hb : s.started with
      | true => rw [startCase_of_started s hb]; exact ⟨h1, h2, h3⟩
      | false =>
          rw [startCase_of_not_started s hb]
          exact ⟨by simp, by simp, fun _ => by simp⟩
  | nav e hst =>
      refine ⟨by simpa using h1, ?_, ?_⟩
      · intro hns
        rw [navigate_started] at hns
        rw [hst] at hns
        cases hns
      · intro _
        unfold navigate
        split
        · next hco =>
            rw [can_open_iff] at hco
            simpa using hco
        · exact h3 hst
  | confirm hst =>
      refine ⟨?_, ?_, ?_⟩
      · unfold confirmReading
        split
        · next hc => simp; omega
        · exact h1
      · intro hns
        rw [confirm_started] at hns
        rw [hst] at hns
        cases hns
      · intro _
        have hcur := h3 hst
        rw [confirm_current]
        calc s.current_env ≤ s.max_opened_envelope := hcur
          _ ≤ (confirmReading s s.current_env).max_opened_envelope :=
              confirm_max_le s s.current_env
  | submit c m mo r t hst =>
      refine ⟨by simpa using h1, ?_, ?_⟩
      · intro hns
        rw [submit_started] at hns
        rw [hst] at hns
        cases hns
      · intro _
        rw [submit_current, submit_max]
        exact h3 hst
  | set_notes txt hst =>
      refine ⟨by simpa using h1, ?_, ?_⟩
      · intro hns
        rw [setNotes_started, hst] at hns
        cases hns
      · intro _
        rw [setNotes_current, setNotes_max]
        exact h3 hst
  | add_hyp ts txt hst =>
      refine ⟨by simpa using h1, ?_, ?_⟩
      · intro hns
        rw [appendHypothesis_started, hst] at hns
        cases hns
      · intro _
        rw [appendHypothesis_current, appendHypothesis_max]
        exact h3 hst
  | add_timeline ts txt hst =>
      refine ⟨by simpa using h1, ?_, ?_⟩
      · intro hns
        rw [appendTimelineEvent_started, hst] at hns
        cases hns
      · intro _
        rw [appendTimelineEvent_current, appendTimelineEvent_max]
        exact h3 hst
  | set_status n v hst =>
      refine ⟨by simpa using h1, ?_, ?_⟩
      · intro hns
        rw [setSuspectStatus_started, hst] at hns
        cases hns
      · intro _
        rw [setSuspectStatus_current, setSuspectStatus_max]
        exact h3 hst
  | set_susp_notes n txt hst =>
      refine ⟨by simpa using h1, ?_, ?_⟩
      · intro hns
        rw [setSuspectNotes_started, hst] at hns
        cases hns
      · intro _
        rw [setSuspectNotes_current, setSuspectNotes_max]
        exact h3 hst

theorem reachable_inv {cd : CaseDef} {s : CaseState} (h : Reachable cd s) : Inv s := by
  induction h with
  | init => exact inv_default cd
  | step _ hs ih => exact inv_step ih hs

theorem step_max_mono {s s2 : CaseState} (h : Inv s) (hs : Step s s2) :
    s.max_opened_envelope ≤ s2.max_opened_envelope := by
  cases hs with
  | start =>
      cases hb : s.started with
      | true => rw [startCase_of_started s hb]
      | false =>
          rw [startCase_of_not_started s hb]
          have := (h.2.1 hb).1
          simp [this]
  | nav e hst => rw [navigate_max]
  | confirm hst => exact confirm_max_le s s.current_env
  | submit c m mo r t hst => rw [submit_max]
  | set_notes txt hst => rw [setNotes_max]
  | add_hyp ts txt hst => rw [appendHypothesis_max]
  | add_timeline ts txt hst => rw [appendTimelineEvent_max]
  | set_status n v hst => rw [setSuspectStatus_max]
  | set_susp_notes n txt hst => rw [setSuspectNotes_max]

theorem step_dec_sub_persist {s s2 : CaseState} (hs : Step s s2)
    (h : s.decision_submitted = true) : s2.decision_submitted = true := by
  cases hs with
  | start => rw [startCase_dec_sub]; exact h
  | nav e hst => rw [navigate_dec_sub]; exact h
  | confirm hst => rw [confirm_dec_sub]; exact h
  | submit c m mo r t hst => exact submit_dec_sub_persist s c m mo r t h
  | set_notes txt hst => rw [setNotes_dec_sub]; exact h
  | add_hyp ts txt hst => rw [appendHypothesis_dec_sub]; exact h
  | add_timeline ts txt hst => rw [appendTimelineEvent_dec_sub]; exact h
  | set_status n v hst => rw [setSuspectStatus_dec_sub]; exact h
  | set_susp_notes n txt hst => rw [setSuspectNotes_dec_sub]; exact h

/-! ## Reachability of the walkthrough states -/

theorem reach_w1 : Reachable cd0 w1 :=
  Reachable.step Reachable.init (Step.start (default_case_state cd0))

theorem reach_w2 : Reachable cd0 w2 :=
  Reachable.step reach_w1 (Step.confirm w1 (by decide))

theorem reach_w3 : Reachable cd0 w3 :=
  Reachable.step reach_w2 (Step.nav w2 2 (by decide))

theorem reach_w4 : Reachable cd0 w4 :=
  Reachable.step reach_w3 (Step.confirm w3 (by decide))

theorem reach_w5 : Reachable cd0 w5 :=
  Reachable.step reach_w4 (Step.nav w4 3 (by decide))

theorem reach_w6 : Reachable cd0 w6 :=
  Reachable.step reach_w5 (Step.confirm w5 (by decide))

theorem reach_w7 : Reachable cd0 w7 :=
  Reachable.step reach_w6 (Step.nav w6 4 (by decide))

theorem reach_w8 : Reachable cd0 w8 :=
  Reachable.step reach_w7 (Step.confirm w7 (by decide))

theorem reach_w9 : Reachable cd0 w9 :=
  Reachable.step reach_w8 (Step.nav w8 5 (by decide))

theorem reach_w10 : Reachable cd0 w10 :=
  Reachable.step reach_w9 (Step.confirm w9 (by decide))

theorem reach_w11 : Reachable cd0 w11 :=
  Reachable.step reach_w10 (Step.nav w10 6 (by decide))

theorem reach_w12 : Reachable cd0 w12 :=
  Reachable.step reach_w11
    (Step.submit w11 "Daniel Moreira" "metodo" "motivo" "raciocinio" "2024-01-01T00:00:00"
      (by decide))

/-! ## Claim theorems -/

/-- C1: in every reachable Progress State the closing page renders the
closing narrative (title and body) exactly when decision_submitted is
true, no path of page_closing reveals any narrative while
decision_submitted is false, and once true decision_submitted is
preserved by every non-reset operation, so the closing stays visible
until the case is reset. -/
theorem closing_visibility (cd : CaseDef) (s : CaseState) (h : Reachable cd s) :
    (page_closing cd s = ClosingView.revealed cd.closing.title cd.closing.body ↔
      s.decision_submitted = true)
    ∧ (s.decision_submitted = false → ∀ t b, page_closing cd s ≠ ClosingView.revealed t b)
    ∧ (∀ s2, Step s s2 → s.decision_submitted = true → s2.decision_submitted = true) := by
  have hinv := reachable_inv h
  refine ⟨?_, ?_, fun s2 hs hd => step_dec_sub_persist hs hd⟩
  · cases hst : s.started with
    | false =>
        have hd := (hinv.2.1 hst).2
        simp [page_closing, hst, hd]
    | true =>
        cases hd : s.decision_submitted with
        | false => simp [page_closing, hst, hd]
        | true => simp [page_closing, hst, hd]
  · intro hd t b
    cases hst : s.started with
    | false => simp [page_closing, hst]
    | true => simp [page_closing, hst, hd]

/-- C1 witness: at the concrete post-submission walkthrough state the
closing narrative is rendered and the gate condition holds. -/
theorem closing_visibility_concrete :
    page_closing cd0 w12 = ClosingView.revealed cd0.closing.title cd0.closing.body ↔
      w12.decision_submitted = true :=
  (closing_visibility cd0 w12 reach_w12).1

/-- C2 counterexample: the start operation is neither confirmReading nor a
reset, yet it changes max_opened_envelope from 0 to 1 on the fresh default
state, refuting the clause that no operation other than confirmReading
and reset changes max_opened_envelope. -/
theorem start_changes_frontier :
    Step (default_case_state cd0) (startCase (default_case_state cd0))
    ∧ (default_case_state cd0).max_opened_envelope = 0
    ∧ (startCase (default_case_state cd0)).max_opened_envelope = 1 :=
  ⟨Step.start (default_case_state cd0), by decide, by decide⟩

/-- C2 (amended): for every envelope index e in 1..6 and every state,
confirmReading e increases max_opened_envelope by exactly 1 iff
e = max_opened_envelope and max_opened_envelope < 6, and otherwise
changes no state field and signals no error; navigation, decision
submission and every notebook mutation leave max_opened_envelope
unchanged, and start is a no-op on a started case while on a
not-started case it sets max_opened_envelope to 1. -/
theorem confirm_frontier_advance (s : CaseState) (e : Nat) (_he : 1 ≤ e ∧ e ≤ 6) :
    ((confirmReading s e).max_opened_envelope = s.max_opened_envelope + 1 ↔
      e = s.max_opened_envelope ∧ s.max_opened_envelope < 6)
    ∧ (¬(e = s.max_opened_envelope ∧ s.max_opened_envelope < 6) → confirmReading s e = s)
    ∧ (∀ e2, (navigate s e2).max_opened_envelope = s.max_opened_envelope)
    ∧ (∀ c m mo r t,
        ((submitDecision s c m mo r t).2).max_opened_envelope = s.max_opened_envelope)
    ∧ (∀ txt, (setNotes s txt).max_opened_envelope = s.max_opened_envelope)
    ∧ (∀ ts txt, (appendHypothesis s ts txt).max_opened_envelope = s.max_opened_envelope)
    ∧ (∀ ts txt, (appendTimelineEvent s ts txt).max_opened_envelope = s.max_opened_envelope)
    ∧ (∀ n v, (setSuspectStatus s n v).max_opened_envelope = s.max_opened_envelope)
    ∧ (∀ n v, (setSuspectNotes s n v).max_opened_envelope = s.max_opened_envelope)
    ∧ (s.started = true → startCase s = s)
    ∧ (s.started = false → (startCase s).max_opened_envelope = 1) := by
  have hiff : (confirmReading s e).max_opened_envelope = s.max_opened_envelope + 1 ↔
      e = s.max_opened_envelope ∧ s.max_opened_envelope < 6 := by
    unfold confirmReading
    split
    · next hcond =>
        obtain ⟨h1, h2⟩ := hcond
        constructor
        · intro _
          omega
        · intro _
          rfl
    · next hcond =>
        constructor
        · intro hmax
          simp at hmax
        · intro hrhs
          obtain ⟨hr1, hr2⟩ := hrhs
          exact absurd ⟨by omega, by omega⟩ hcond
  have hnoop : ¬(e = s.max_opened_envelope ∧ s.max_opened_envelope < 6) →
      confirmReading s e = s := by
    intro hnc
    unfold confirmReading
    split
    · next hcond =>
        obtain ⟨h1, h2⟩ := hcond
        exact absurd ⟨by omega, by omega⟩ hnc
    · rfl
  exact ⟨hiff, hnoop, fun e2 => navigate_max s e2,
    fun c m mo r t => submit_max s c m mo r t, fun txt => rfl,
    fun ts txt => appendHypothesis_max s ts txt,
    fun ts txt => appendTimelineEvent_max s ts txt, fun n v => rfl, fun n v => rfl,
    fun hb => startCase_of_started s hb,
    fun hb => by rw [startCase_of_not_started s hb]⟩

/-- C2 witness: confirming envelope 1 at the just-started walkthrough
state advances the frontier by exactly one. -/
theorem confirm_frontier_advance_concrete :
    (confirmReading w1 1).max_opened_envelope = w1.max_opened_envelope + 1 ↔
      1 = w1.max_opened_envelope ∧ w1.max_opened_envelope < 6 :=
  (confirm_frontier_advance w1 1 (by decide)).1

/-- C3 counterexample: at the concrete post-submission state a second
submitDecision with fresh valid fields is reported as success, not
rejected, and it overwrites the recorded decision. -/
theorem resubmission_overwrites :
    w12.decision_submitted = true
    ∧ (submitDecision w12 "Laura Moreira" "m2" "mo2" "r2" "t2").1 = SubmitOutcome.success
    ∧ ((submitDecision w12 "Laura Moreira" "m2" "mo2" "r2" "t2").2).decision ≠ w12.decision :=
  ⟨by decide, by decide, by decide⟩

/-- C3 (amended): once decision_submitted is true, a further
submitDecision with valid fields is silently accepted and overwrites the
culprit, method, motive, reasoning and timestamp (decision_submitted
stays true); apart from submitDecision itself, no operation other than a
case reset mutates any field of the decision record. -/
theorem decision_after_submission (s : CaseState) (c m mo r t : String)
    (_hsub : s.decision_submitted = true) (hul : all_unlocked s = true)
    (hc : ¬c = "") (hm : ¬strip m = "") (hmo : ¬strip mo = "") (hr : ¬strip r = "") :
    (submitDecision s c m mo r t).1 = SubmitOutcome.success
    ∧ ((submitDecision s c m mo r t).2).decision =
        { culprit := c, method := strip m, motive := strip mo, reasoning := strip r,
          submitted_at := some t }
    ∧ ((submitDecision s c m mo r t).2).decision_submitted = true
    ∧ (startCase s).decision = s.decision
    ∧ (∀ e, (navigate s e).decision = s.decision)
    ∧ (confirmReading s s.current_env).decision = s.decision
    ∧ (∀ txt, (setNotes s txt).decision = s.decision)
    ∧ (∀ ts txt, (appendHypothesis s ts txt).decision = s.decision)
    ∧ (∀ ts txt, (appendTimelineEvent s ts txt).decision = s.decision)
    ∧ (∀ n v, (setSuspectStatus s n v).decision = s.decision)
    ∧ (∀ n v, (setSuspectNotes s n v).decision = s.decision) := by
  have hcommit : submitDecision s c m mo r t =
      (SubmitOutcome.success,
        { s with
            decision_submitted := true
            decision := { culprit := c, method := strip m, motive := strip mo,
                          reasoning := strip r, submitted_at := some t } }) := by
    unfold submitDecision
    simp [hul, hc, hm, hmo, hr]
  refine ⟨?_, ?_, ?_, startCase_decision s, fun e => navigate_decision s e,
    confirm_decision s s.current_env, fun txt => rfl,
    fun ts txt => appendHypothesis_decision s ts txt,
    fun ts txt => appendTimelineEvent_decision s ts txt, fun n v => rfl, fun n v => rfl⟩
  · rw [hcommit]
  · rw [hcommit]
  · rw [hcommit]

/-- C3 witness: the amended behaviour at the concrete resubmission. -/
theorem decision_after_submission_concrete :
    (submitDecision w12 "Laura Moreira" "m2" "mo2" "r2" "t2").1 = SubmitOutcome.success :=
  (decision_after_submission w12 "Laura Moreira" "m2" "mo2" "r2" "t2" (by decide) (by decide)
    (by decide) (by decide) (by decide) (by decide)).1

/-- C4 counterexample: navigating to locked envelope 2 right after the
start is a silent no-op in the code, while the specification's navigate
raises LockedEnvelopeError there; the two outcomes differ at this
concrete input. -/
theorem locked_navigation_silent :
    navigate_outcome w1 2 = NavOutcome.silent w1
    ∧ navigate_spec w1 2 = NavOutcome.lockedError w1
    ∧ navigate_outcome w1 2 ≠ navigate_spec w1 2 :=
  ⟨by decide, by decide, by decide⟩

/-- C4 (amended): for every envelope index e in 1..6, navigate e succeeds
and sets current_env = e iff e is at most max_opened_envelope at call
time; otherwise the envelope's control is disabled and the attempt is a
silent no-op that leaves the state unchanged — no LockedEnvelopeError is
raised (the unlock condition is the can_open check evaluated on every
render; there is no separate engine-side re-validation). -/
theorem navigation_gating (s : CaseState) (e : Nat) (_he : 1 ≤ e ∧ e ≤ 6) :
    (e ≤ s.max_opened_envelope →
      navigate_outcome s e = NavOutcome.moved { s with current_env := e }
      ∧ navigate s e = { s with current_env := e })
    ∧ (s.max_opened_envelope < e →
      navigate_outcome s e = NavOutcome.silent s ∧ navigate s e = s) := by
  constructor
  · intro hle
    have hco : can_open s e = true := by
      rw [can_open_iff]
      exact hle
    constructor
    · unfold navigate_outcome
      rw [hco]
      simp
    · unfold navigate
      rw [hco]
      simp
  · intro hlt
    have hco : can_open s e = false := by
      unfold can_open
      simp
      omega
    constructor
    · unfold navigate_outcome
      rw [hco]
      simp
    · unfold navigate
      rw [hco]
      simp

/-- C4 witness: opening the unlocked envelope 1 at the just-started state
moves the envelope pointer. -/
theorem navigation_gating_concrete :
    navigate_outcome w1 1 = NavOutcome.moved { w1 with current_env := 1 }
    ∧ navigate w1 1 = { w1 with current_env := 1 } :=
  (navigation_gating w1 1 (by decide)).1 (by decide)

/-- C5 counterexample: a submission missing only the method and one
missing only the motive produce the identical fixed error message, so the
error cannot name the missing field; and a whitespace-only culprit string
is accepted because the code tests the culprit only for emptiness without
trimming. -/
theorem incomplete_error_generic :
    (submitDecision w11 "Daniel Moreira" " " "motivo" "raciocinio" "t").1 =
      SubmitOutcome.incomplete "Preencha todos os campos."
    ∧ (submitDecision w11 "Daniel Moreira" "metodo" " " "raciocinio" "t").1 =
      SubmitOutcome.incomplete "Preencha todos os campos."
    ∧ (submitDecision w11 "Daniel Moreira" " " "motivo" "raciocinio" "t").2 = w11
    ∧ (submitDecision w11 " " "metodo" "motivo" "raciocinio" "t").1 = SubmitOutcome.success :=
  ⟨by decide, by decide, by decide, by decide⟩

/-- C5 (amended): with all envelopes unlocked, submitDecision rejects a
submission whose culprit selection is empty or whose method, motive or
reasoning is blank after trimming, with the fixed generic message
"Preencha todos os campos." (not naming the missing fields) and with the
state completely unchanged; the culprit is tested only for emptiness, not
trimmed; with culprit non-empty and the other three non-blank it sets
decision_submitted and records the trimmed fields with the timestamp;
and when not all envelopes are unlocked the decision page refuses the
interaction and changes nothing. -/
theorem decision_validation (s s2 : CaseState) (c m mo r t : String)
    (h6 : all_unlocked s = true) (h6n : all_unlocked s2 = false) :
    ((c = "" ∨ strip m = "" ∨ strip mo = "" ∨ strip r = "") →
      submitDecision s c m mo r t = (SubmitOutcome.incomplete "Preencha todos os campos.", s))
    ∧ (¬c = "" → ¬strip m = "" → ¬strip mo = "" → ¬strip r = "" →
      submitDecision s c m mo r t =
        (SubmitOutcome.success,
          { s with
              decision_submitted := true
              decision := { culprit := c, method := strip m, motive := strip mo,
                            reasoning := strip r, submitted_at := some t } }))
    ∧ submitDecision s2 c m mo r t = (SubmitOutcome.notAllUnlocked, s2) := by
  refine ⟨?_, ?_, ?_⟩
  · intro hbad
    unfold submitDecision
    split <;> simp_all
  · intro hc hm hmo hr
    unfold submitDecision
    simp [h6, hc, hm, hmo, hr]
  · unfold submitDecision
    simp [h6n]

/-- C5 witness: the empty culprit selection is rejected with the generic
message at the fully unlocked walkthrough state. -/
theorem decision_validation_concrete :
    submitDecision w11 "" "metodo" "motivo" "raciocinio" "t" =
      (SubmitOutcome.incomplete "Preencha todos os campos.", w11) :=
  (decision_validation w11 w1 "" "metodo" "motivo" "raciocinio" "t" (by decide) (by decide)).1
    (Or.inl rfl)

/-- C6 counterexample: a case whose envelope ids are 1,2,4,5,6 (gap at 3)
is accepted by load_case without any ContentError, and the later lookup
of envelope 3 fails generically (the modelled StopIteration), so the gap
is not surfaced as a ContentError at load. -/
theorem gap_accepted_at_load :
    cd_gap.envelopes.map Envelope.id = [1, 2, 4, 5, 6]
    ∧ load_case (some cd_gap) = Except.ok cd_gap
    ∧ envelope_by_id cd_gap 3 = none :=
  ⟨by decide, rfl, by decide⟩

/-- C6 (amended): the engine performs no validation of envelope ids:
load_case fails with a ContentError only when the case file does not
resolve and otherwise accepts the parsed content as-is, gaps included; an
id absent from the envelope list makes envelope_by_id fail with a generic
unhandled lookup failure (the none result modelling StopIteration), not a
ContentError. -/
theorem no_envelope_validation (cd : CaseDef) (i : Nat)
    (h : ∀ e ∈ cd.envelopes, e.id ≠ i) :
    load_case (some cd) = Except.ok cd
    ∧ envelope_by_id cd i = none
    ∧ load_case none = Except.error ContentError.missing_case_file := by
  refine ⟨rfl, ?_, rfl⟩
  unfold envelope_by_id
  rw [List.find?_eq_none]
  intro e he
  simpa using h e he

/-- C6 witness: the gapped case is loaded without error and the lookup of
the missing id 3 yields the generic failure. -/
theorem no_envelope_validation_concrete :
    load_case (some cd_gap) = Except.ok cd_gap
    ∧ envelope_by_id cd_gap 3 = none
    ∧ load_case none = Except.error ContentError.missing_case_file :=
  no_envelope_validation cd_gap 3 (by decide)

/-- C7: in every reachable Progress State the frontier satisfies
0 ≤ max_opened_envelope ≤ 6, and no non-reset operation ever decreases
it. -/
theorem frontier_bounds_mono (cd : CaseDef) (s s2 : CaseState)
    (h : Reachable cd s) (hs : Step s s2) :
    0 ≤ s.max_opened_envelope ∧ s.max_opened_envelope ≤ 6
    ∧ s.max_opened_envelope ≤ s2.max_opened_envelope :=
  ⟨Nat.zero_le _, (reachable_inv h).1, step_max_mono (reachable_inv h) hs⟩

/-- C7 witness: the bounds and monotonicity at the first confirm step of
the walkthrough. -/
theorem frontier_bounds_mono_concrete :
    0 ≤ w1.max_opened_envelope ∧ w1.max_opened_envelope ≤ 6
    ∧ w1.max_opened_envelope ≤ w2.max_opened_envelope :=
  frontier_bounds_mono cd0 w1 w2 reach_w1 (Step.confirm w1 (by decide))

/-- C8: any mutation performed on case a's state through the session
registry leaves every other case's entry exactly unchanged, and
reset_case replaces only the entry of its own slug with the fresh default
state. -/
theorem case_isolation (r : Registry) (a b : String) (cd : CaseDef)
    (f : CaseState → CaseState) (hab : a ≠ b) :
    session_apply r a cd f b = r b
    ∧ reset_case r a cd b = r b
    ∧ reset_case r a cd a = some (default_case_state cd) := by
  have hba : ¬(b = a) := fun hba2 => hab hba2.symm
  refine ⟨?_, ?_, ?_⟩
  · cases hra : r a with
    | some cs => simp [session_apply, get_cs, hra, set_entry, hba]
    | none => simp [session_apply, get_cs, hra, set_entry, hba]
  · simp [reset_case, set_entry, hba]
  · simp [reset_case, set_entry]

/-- C8 witness: mutating and resetting case "a" leaves the stored state
of case "b" untouched in the concrete registry. -/
theorem case_isolation_concrete :
    session_apply reg0 "a" cd0 startCase "b" = reg0 "b"
    ∧ reset_case reg0 "a" cd0 "b" = reg0 "b"
    ∧ reset_case reg0 "a" cd0 "a" = some (default_case_state cd0) :=
  case_isolation reg0 "a" "b" cd0 startCase (by decide)

/-- C9: get_cs returns the stored state unchanged when the slug is
present, otherwise creates and stores the default state; a repeated call
with the same slug is idempotent; and the default state has exactly the
documented fields, with the suspects seeded from the case definition or
from the fixed fallback roster of three names when the case declares
none, each with status Neutro and empty notes. -/
theorem get_cs_behavior (r : Registry) (slug : String) (cd : CaseDef) :
    (∀ cs, r slug = some cs → get_cs r slug cd = (cs, r))
    ∧ (r slug = none →
        get_cs r slug cd = (default_case_state cd, set_entry r slug (default_case_state cd)))
    ∧ get_cs (get_cs r slug cd).2 slug cd = ((get_cs r slug cd).1, (get_cs r slug cd).2)
    ∧ (default_case_state cd).started = false
    ∧ (default_case_state cd).current_env = 1
    ∧ (default_case_state cd).max_opened_envelope = 0
    ∧ (default_case_state cd).notes = ""
    ∧ (default_case_state cd).timeline = []
    ∧ (default_case_state cd).hypotheses = []
    ∧ (default_case_state cd).decision_submitted = false
    ∧ (default_case_state cd).decision =
        { culprit := "", method := "", motive := "", reasoning := "", submitted_at := none }
    ∧ (default_case_state cd).suspects =
        (if cd.suspects.isEmpty then fallback_suspects else cd.suspects).map
          (fun n => (n, { status := "Neutro", notes := "" })) := by
  refine ⟨?_, ?_, ?_, rfl, rfl, rfl, rfl, rfl, rfl, rfl, rfl, rfl⟩
  · intro cs hcs
    simp [get_cs, hcs]
  · intro hnone
    simp [get_cs, hnone]
  · cases hra : r slug with
    | some cs => simp [get_cs, hra]
    | none => simp [get_cs, hra, set_entry]

/-- C9 witness: get_cs returns the already-stored state of slug "b" and
leaves the registry unchanged. -/
theorem get_cs_behavior_concrete :
    get_cs reg0 "b" cd0 = (startCase (default_case_state cd0), reg0) :=
  (get_cs_behavior reg0 "b" cd0).1 (startCase (default_case_state cd0)) (by decide)

/-- C10: in every reachable Progress State with started = true the
envelope pointer never exceeds the frontier, and on a not-started state
the start operation sets both the pointer and the frontier to 1. -/
theorem current_le_frontier (cd : CaseDef) (s : CaseState) (h : Reachable cd s) :
    (s.started = true → s.current_env ≤ s.max_opened_envelope)
    ∧ (s.started = false → (startCase s).current_env = 1
        ∧ (startCase s).max_opened_envelope = 1) := by
  refine ⟨(reachable_inv h).2.2, fun hns => ?_⟩
  rw [startCase_of_not_started s hns]
  exact ⟨rfl, rfl⟩

/-- C10 witness: the invariant at a mid-walkthrough state with the
pointer on envelope 2. -/
theorem current_le_frontier_concrete :
    w3.current_env ≤ w3.max_opened_envelope :=
  (current_le_frontier cd0 w3 reach_w3).1 (by decide)

end Detetive
